import Mathlib

/-!
Verification of the dub-hacks network diagnose-and-remediate system.

The React frontend (Dashboard, ChatInput, SettingsPanel, status cards) is
embedded directly from the JavaScript source under src/frontend.  The Python
decision engine (intent classification, remediation planning, band-speed
comparison, quality scoring) is not part of the provided sources, so those
components are modelled from the specification, as marked on each definition.
-/

/-- Intent tier of a classified query: status query, suggestion, or fix. -/
inductive Intent where
  | statusQuery
  | suggestion
  | fix
deriving DecidableEq, Repr

/-- Issue tags detected from the query text. -/
inductive IssueTag where
  | connectionUnstable
  | highLatency
  | weakSignal
  | dnsFailure
  | unknown
deriving DecidableEq, Repr

/-- WiFi frequency band. -/
inductive Band where
  | g24
  | g5
deriving DecidableEq, Repr

/-- Modelled from the spec: a rule of the declarative intent rule table.
Each rule has a pattern set and a target intent with issue tags. -/
structure Rule where
  patterns : List String
  intent : Intent
  tags : List IssueTag

/-- Numeric rank of an intent tier: Fix-tier rules come before
Suggestion-tier rules, which come before StatusQuery-tier rules. -/
def tierRank : Intent → Nat
  | .fix => 0
  | .suggestion => 1
  | .statusQuery => 2

/-- Modelled from the spec: case-insensitive, punctuation-tolerant
normalisation of a query before pattern matching. -/
def normalizeQuery (q : String) : List Char :=
  (q.data.map Char.toLower).filter (fun c => !(c == '?' || c == '!' || c == '.' || c == ','))

/-- Does the character list `p` occur as a contiguous run inside `l`? -/
def containsRun (p l : List Char) : Bool :=
  l.tails.any (fun t => p.isPrefixOf t)

/-- Modelled from the spec: a rule matches when any of its patterns occurs
in the normalised query text. -/
def ruleMatches (r : Rule) (q : String) : Bool :=
  r.patterns.any (fun p => containsRun p.data (normalizeQuery q))

/-- Modelled from the spec: the ordered rule table.  Fix-tier rules are
listed first, then Suggestion-tier rules, then StatusQuery-tier rules;
keyword sets follow the documented test scenarios. -/
def ruleTable : List Rule :=
  [ ⟨["unstable", "disconnect", "dropping"], .fix, [.connectionUnstable]⟩
  , ⟨["slow", "lagging", "sluggish", "crawling", "latency"], .fix, [.highLatency]⟩
  , ⟨["websites", "browse", "browser", "not working", "broken"], .fix, [.dnsFailure]⟩
  , ⟨["weak", "signal", "poor", "bars", "strength"], .suggestion, [.weakSignal]⟩
  , ⟨["status", "connected", "check", "hello", "how", "what"], .statusQuery, []⟩ ]

/-- Modelled from the spec: evaluate the rules of `rs` in order and return
the target of the first matching rule; with no match, default to a
StatusQuery intent with no tags. -/
def classifyFrom : List Rule → String → Intent × List IssueTag
  | [], _ => (.statusQuery, [])
  | r :: rs, q => if ruleMatches r q then (r.intent, r.tags) else classifyFrom rs q

/-- Modelled from the spec: intent classification over the static rule table. -/
def classifyIntent (q : String) : Intent × List IssueTag :=
  classifyFrom ruleTable q

/-- Modelled from the spec: a fix action with its id, addressed tags, command
descriptor, privilege and idempotence flags, and disruption rank. -/
structure FixAction where
  id : String
  tags : List IssueTag
  command : String
  requiresElevatedPrivilege : Bool
  idempotent : Bool
  disruption : Nat
deriving DecidableEq, Repr

/-- Modelled from the spec and the fixes guide: DNS cache flush. -/
def flushDnsAction : FixAction :=
  ⟨"flush_dns_cache", [.dnsFailure, .highLatency, .connectionUnstable], "resolvectl flush-caches", false, true, 1⟩

/-- Modelled from the spec and the fixes guide: DNS resolver restart. -/
def restartDnsAction : FixAction :=
  ⟨"restart_dns_service", [.dnsFailure], "systemctl restart systemd-resolved", true, true, 2⟩

/-- Modelled from the spec and the fixes guide: routing-cache flush for latency. -/
def fixLatencyAction : FixAction :=
  ⟨"fix_latency_issues", [.highLatency], "ip route flush cache", true, true, 3⟩

/-- Modelled from the spec and the fixes guide: DHCP release/renew. -/
def renewIpAction : FixAction :=
  ⟨"release_renew_ip", [.dnsFailure], "dhclient -r; dhclient", true, false, 4⟩

/-- Modelled from the spec and the fixes guide: network stack restart. -/
def restartStackAction : FixAction :=
  ⟨"restart_network_stack", [.connectionUnstable], "systemctl restart NetworkManager", true, false, 5⟩

/-- Modelled from the spec and the fixes guide: WiFi adapter reset. -/
def resetAdapterAction : FixAction :=
  ⟨"reset_wifi_adapter", [.connectionUnstable], "nmcli radio wifi off; nmcli radio wifi on", true, false, 6⟩

/-- Modelled from the spec and the fixes guide: 2.4GHz/5GHz band switch. -/
def changeBandAction : FixAction :=
  ⟨"change_band", [.highLatency], "nmcli connection modify band", true, false, 8⟩

/-- Modelled from the spec: static registry mapping each issue tag to its
candidate fix actions.  `weakSignal` has no mapped action (scenario B of the
spec), so a Fix intent on it alone downgrades to Suggestion. -/
def fixRegistry : IssueTag → List FixAction
  | .connectionUnstable => [resetAdapterAction, restartStackAction, flushDnsAction]
  | .highLatency => [fixLatencyAction, flushDnsAction, changeBandAction]
  | .dnsFailure => [restartDnsAction, flushDnsAction, renewIpAction]
  | .weakSignal => []
  | .unknown => []

/-- Modelled from the spec: deduplicate candidate actions by action id,
keeping the first occurrence. -/
def dedupById : List FixAction → List FixAction
  | [] => []
  | a :: rest => a :: dedupById (rest.filter (fun b => !(b.id == a.id)))
termination_by l => l.length
decreasing_by
  simp only [List.length_cons]
  exact Nat.lt_succ_of_le (List.length_filter_le _ _)

/-- Ordering key of the planner: disruption rank, ascending. -/
def disrLE (a b : FixAction) : Prop := a.disruption ≤ b.disruption

instance : DecidableRel disrLE := fun a b => Nat.decLe a.disruption b.disruption

instance : IsTotal FixAction disrLE := ⟨fun a b => Nat.le_total a.disruption b.disruption⟩

instance : IsTrans FixAction disrLE := ⟨fun _ _ _ h h2 => Nat.le_trans h h2⟩

/-- Per-request cap on plan length. -/
def planCap : Nat := 5

/-- Modelled from the spec: the Remediation Planner.  Unions the registry
entries of all tags, deduplicates by id, sorts by disruption rank ascending,
and truncates to the per-request cap. -/
def planFix (tags : List IssueTag) : List FixAction :=
  (List.insertionSort disrLE (dedupById (tags.flatMap fixRegistry))).take planCap

/-- The candidate actions dropped by the planner's truncation. -/
def planDropped (tags : List IssueTag) : List FixAction :=
  (List.insertionSort disrLE (dedupById (tags.flatMap fixRegistry))).drop planCap

/-- Clamp a subscore into the range 0 to 100. -/
def clampScore (x : ℚ) : ℚ := max 0 (min 100 x)

/-- Modelled from the spec: normalized latency subscore (lower latency is better). -/
def latencySub (lat : ℚ) : ℚ := clampScore (100 - lat)

/-- Modelled from the spec: normalized packet-loss subscore (more loss is worse). -/
def lossSub (loss : ℚ) : ℚ := clampScore (100 - 4 * loss)

/-- Modelled from the spec: normalized signal subscore (stronger dBm is better). -/
def signalSub (sig : ℚ) : ℚ := clampScore (2 * (sig + 100))

/-- Modelled from the spec: normalized DNS-timing subscore. -/
def dnsSub (dns : ℚ) : ℚ := clampScore (100 - dns / 2)

/-- Weight of the latency subscore. -/
def wLat : ℚ := 3 / 10

/-- Weight of the packet-loss subscore. -/
def wLoss : ℚ := 3 / 10

/-- Weight of the signal subscore. -/
def wSig : ℚ := 1 / 5

/-- Weight of the DNS-timing subscore. -/
def wDns : ℚ := 1 / 5

/-- The weight a check contributes: its full weight when the check
succeeded, zero when it is "unknown". -/
def optW (w : ℚ) : Option ℚ → ℚ
  | some _ => w
  | none => 0

/-- The weighted subscore a check contributes, zero when "unknown". -/
def optN (w : ℚ) (f : ℚ → ℚ) : Option ℚ → ℚ
  | some v => w * f v
  | none => 0

/-- Modelled from the spec: quality score as a weighted combination of the
subscores of the checks that succeeded, with the weights renormalized over
the succeeding subset so missing data is never penalized. -/
def qualityScore (lat loss sig dns : Option ℚ) : ℚ :=
  if optW wLat lat + optW wLoss loss + optW wSig sig + optW wDns dns = 0 then 0
  else
    (optN wLat latencySub lat + optN wLoss lossSub loss +
        optN wSig signalSub sig + optN wDns dnsSub dns) /
      (optW wLat lat + optW wLoss loss + optW wSig sig + optW wDns dns)

/-- A diagnostic snapshot; every datum of a failed check is an explicit
`none` ("unknown"), never a default numeric value. -/
structure DiagnosticSnapshot where
  latency : Option ℚ
  packetLoss : Option ℚ
  signalStrength : Option ℚ
  dnsTime : Option ℚ
  activeConnections : Option Nat
  quality : ℚ

/-- The environment a diagnose run observes: the outcome of each bounded
check (`none` = the check failed) and the success of each fix command. -/
structure DiagEnv where
  latency : Option ℚ
  packetLoss : Option ℚ
  signalStrength : Option ℚ
  dnsTime : Option ℚ
  activeConnections : Option Nat
  actionOk : String → Bool

/-- Modelled from the spec: the Diagnostics Collector aggregates the check
outcomes into a snapshot; a failed check is recorded as "unknown". -/
def collectSnapshot (env : DiagEnv) : DiagnosticSnapshot :=
  ⟨env.latency, env.packetLoss, env.signalStrength, env.dnsTime, env.activeConnections,
    qualityScore env.latency env.packetLoss env.signalStrength env.dnsTime⟩

/-- Result of one executed fix action, created by the Executor. -/
structure FixAttemptResult where
  actionId : String
  success : Bool
deriving DecidableEq, Repr

/-- Modelled from the spec: the Executor runs one action through the Command
Runner; a failure is captured as `success = false`, never thrown. -/
def runAction (env : DiagEnv) (a : FixAction) : FixAttemptResult :=
  ⟨a.id, env.actionOk a.id⟩

/-- Modelled from the spec: static recommendation text per issue tag. -/
def recommendationFor : IssueTag → String
  | .connectionUnstable => "Restart your router and check for interference."
  | .highLatency => "Check for network congestion or switch to wired Ethernet."
  | .weakSignal => "Move your router to a central location or use the 5GHz band."
  | .dnsFailure => "Try a public DNS server such as 8.8.8.8."
  | .unknown => "Contact your internet provider if problems persist."

/-- The structured remediation report returned by every diagnose run. -/
structure RemediationReport where
  intent : Intent
  tags : List IssueTag
  before : DiagnosticSnapshot
  after : Option DiagnosticSnapshot
  results : List FixAttemptResult
  recommendations : List String

/-- Modelled from the spec: the exposed Diagnose operation.  It classifies
the query, collects a snapshot, and for Fix intent plans and executes the
actions sequentially; per-check and per-action failures are captured as data
and the operation always returns a report. -/
def diagnose (q : String) (env : DiagEnv) : RemediationReport :=
  match classifyIntent q with
  | (.statusQuery, tags) => ⟨.statusQuery, tags, collectSnapshot env, none, [], []⟩
  | (.suggestion, tags) => ⟨.suggestion, tags, collectSnapshot env, none, [], tags.map recommendationFor⟩
  | (.fix, tags) =>
    if (planFix tags).isEmpty then
      ⟨.suggestion, tags, collectSnapshot env, none, [], tags.map recommendationFor⟩
    else
      ⟨.fix, tags, collectSnapshot env, some (collectSnapshot env),
        (planFix tags).map (runAction env),
        (tags.filter (fun t =>
          !(((planFix tags).map (runAction env)).any (fun r =>
            r.success && ((fixRegistry t).any (fun a => a.id == r.actionId)))))).map
          recommendationFor⟩

/-- The alternate WiFi band. -/
def otherBand : Band → Band
  | .g24 => .g5
  | .g5 => .g24

/-- Environment of a band comparison: per-band throughput measurement
(`none` = the measurement failed) and whether a switch to a band succeeds. -/
structure BandEnv where
  measure : Band → Option ℚ
  switchOk : Band → Bool

/-- Result of a band comparison: both measured throughputs (`none` for a
failed phase) and the final chosen band. -/
structure BandResult where
  phase1 : Option ℚ
  phase2 : Option ℚ
  finalBand : Band
deriving DecidableEq, Repr

/-- Attempt a band switch; a failed switch leaves the device on its
current band. -/
def trySwitch (env : BandEnv) (cur target : Band) : Band :=
  if env.switchOk target then target else cur

/-- Modelled from the spec: the Band Speed Comparator.  Phase 1 measures the
current band, phase 2 switches to the alternate band and measures there; the
alternate band is kept only when it beats the original by more than the 5%
noise threshold, and on any failed phase the comparator attempts to restore
the original band.  Returns the result record and the band the device is
actually connected to at the end. -/
def bandComparator (env : BandEnv) (orig : Band) : BandResult × Band :=
  let t1 := env.measure orig
  let alt := otherBand orig
  if env.switchOk alt then
    let t2 := env.measure alt
    match t1, t2 with
    | some v1, some v2 =>
      if v2 > v1 * (21 / 20) then (⟨t1, t2, alt⟩, alt)
      else
        let fin := trySwitch env alt orig
        (⟨t1, t2, fin⟩, fin)
    | _, _ =>
      let fin := trySwitch env alt orig
      (⟨t1, t2, fin⟩, fin)
  else
    (⟨t1, none, orig⟩, orig)

/-- A chat message as stored by the Dashboard. -/
structure ChatMsg where
  role : String
  content : String
deriving DecidableEq, Repr

/-- From Dashboard.js: `.replace(/\x2a\x2a/g, '')` — remove each
non-overlapping occurrence of a double asterisk, scanning left to right. -/
def stripDoubleStar : List Char → List Char
  | [] => []
  | [c] => [c]
  | c :: d :: rest =>
    if c = '*' ∧ d = '*' then stripDoubleStar rest
    else c :: stripDoubleStar (d :: rest)

/-- From Dashboard.js: `.replace(/\x2a/g, '')` — remove every asterisk. -/
def stripStar (l : List Char) : List Char := l.filter (fun c => !(c == '*'))

/-- Leading and trailing whitespace removal, as `.trim()`. -/
def trimChars (l : List Char) : List Char :=
  ((l.dropWhile Char.isWhitespace).reverse.dropWhile Char.isWhitespace).reverse

/-- From Dashboard.js lines 149-153: the response-cleaning pipeline applied
before the assistant message is stored. -/
def cleanResponse (s : String) : String :=
  String.mk (trimChars (stripStar (stripDoubleStar s.data)))

/-- The cleaning the spec describes: every asterisk removed, then trimmed.
Stated independently of the source pipeline for comparison. -/
def specCleaned (s : String) : String :=
  String.mk (trimChars (s.data.filter (fun c => !(c == '*'))))

/-- Fallback text when the backend reply carries no response field
(Dashboard.js line 150). -/
def fallbackText : String := "Sorry, I could not process your request."

/-- Apology text appended when the backend request fails
(Dashboard.js line 173). -/
def apologyText : String := "Sorry, I'm having trouble connecting right now. Please try again later."

/-- Outcome of the backend chat request made by `handleSendMessage`. -/
inductive BackendOutcome where
  | ok (response : Option String)
  | httpError
  | networkThrow

/-- From Dashboard.js lines 123-178: `handleSendMessage` returns early when
no user is loaded; otherwise it stores the user message and then, on a
successful response, the cleaned assistant reply, and on an HTTP error or a
thrown request, the apology assistant message.  The value is the ordered
list of messages the run stores. -/
def handleSendMessage (user : Bool) (content : String) (outcome : BackendOutcome) : List ChatMsg :=
  if !user then []
  else
    match outcome with
    | .ok resp => [⟨"user", content⟩, ⟨"assistant", cleanResponse (resp.getD fallbackText)⟩]
    | .httpError => [⟨"user", content⟩, ⟨"assistant", apologyText⟩]
    | .networkThrow => [⟨"user", content⟩, ⟨"assistant", apologyText⟩]

/-- From Dashboard.js lines 123-127: whether the body of `handleSendMessage`
runs.  The only guard is `if (!user) return;` — the `isProcessing` flag is
not consulted. -/
def dashSendMessageRuns (user _isProcessing : Bool) : Bool := user

/-- From ChatInput.js lines 15-20: `handleSend` calls `onSendMessage` with
the (untrimmed) message and clears the input only when the trimmed message
is non-empty and no send is in flight; otherwise it does nothing.  The value
is `some (sent message, new input text)` when a send is dispatched. -/
def handleSend (message : String) (isProcessing : Bool) : Option (String × String) :=
  if !(message.trim == "") && !isProcessing then some (message, "") else none

/-- From ChatInput.js lines 196-199: the send button's disabled condition
`!message.trim() || isProcessing`. -/
def sendButtonDisabled (message : String) (isProcessing : Bool) : Bool :=
  (message.trim == "") || isProcessing

/-- Modelled from the spec: the process-wide execution lock keyed by network
interface.  Acquiring a held interface is rejected with a
"remediation in progress" signal (`none`); otherwise the interface is added
to the held set. -/
def tryAcquire (locked : List String) (iface : String) : Option (List String) :=
  if iface ∈ locked then none else some (iface :: locked)

/-- The persisted user settings handled by SettingsPanel. -/
structure AppSettings where
  id : Nat
  user_email : String
  api_url : String
  voice_mode_enabled : Bool
deriving DecidableEq, Repr

/-- From SettingsPanel.js lines 22-28: editing the API URL input calls
`onUpdateSettings({ ...settings, api_url: value })`. -/
def updateApiUrl (s : AppSettings) (v : String) : AppSettings := { s with api_url := v }

/-- From SettingsPanel.js lines 36-42: toggling voice responses calls
`onUpdateSettings({ ...settings, voice_mode_enabled: checked })`. -/
def toggleVoiceMode (s : AppSettings) (checked : Bool) : AppSettings :=
  { s with voice_mode_enabled := checked }

/-- From PerformanceStatus.js line 40: the rendered quality text
`performance.network_quality || "Unknown"` (a missing or empty value is the
falsy case). -/
def perfQualityText (q : Option String) : String :=
  match q with
  | some s => if s = "" then "Unknown" else s
  | none => "Unknown"

/-- From PerformanceStatus.js line 45: the rendered active-connections text
`performance.active_connections || 0` (a missing value is the falsy case and
renders the default number zero). -/
def perfActiveConnectionsText (a : Option Nat) : String :=
  toString (match a with
    | some n => n
    | none => 0)

/-- From NetworkStatus.js line 38: the rendered signal text
`wifi.signal_strength || "N/A"` (a missing or zero value is the falsy case). -/
def netSignalText (s : Option Int) : String :=
  match s with
  | some n => if n = 0 then "N/A" else toString n
  | none => "N/A"

/-- Every element surviving deduplication came from the input list. -/
theorem mem_dedupById : ∀ {l : List FixAction} {b : FixAction}, b ∈ dedupById l → b ∈ l := by
  intro l
  induction l using dedupById.induct with
  | case1 => intro b h; simp [dedupById] at h
  | case2 a rest ih =>
    intro b h
    rw [dedupById] at h
    rcases List.mem_cons.mp h with h | h
    · exact h ▸ List.mem_cons_self _ _
    · exact List.mem_cons_of_mem _ (List.mem_of_mem_filter (ih h))

/-- Deduplication yields pairwise-distinct action ids. -/
theorem nodup_ids_dedupById : ∀ l : List FixAction, ((dedupById l).map FixAction.id).Nodup := by
  intro l
  induction l using dedupById.induct with
  | case1 => simp [dedupById]
  | case2 a rest ih =>
    rw [dedupById, List.map_cons, List.nodup_cons]
    refine ⟨?_, ih⟩
    intro hmem
    rcases List.mem_map.mp hmem with ⟨b, hb, hid⟩
    have hfil := mem_dedupById hb
    have := List.of_mem_filter hfil
    simp only [Bool.not_eq_true', beq_eq_false_iff_ne, ne_eq] at this
    exact this hid

/-- First-match semantics of the rule loop, as a `List.find?` characterisation. -/
theorem classifyFrom_eq_find (rs : List Rule) (q : String) :
    classifyFrom rs q =
      ((rs.find? (fun r => ruleMatches r q)).map (fun r => (r.intent, r.tags))).getD
        (.statusQuery, []) := by
  induction rs with
  | nil => rfl
  | cons r rs ih =>
    by_cases h : ruleMatches r q
    · simp [classifyFrom, h, List.find?]
    · simp only [Bool.not_eq_true] at h
      simp only [classifyFrom, h, if_false, List.find?, Bool.false_eq_true]
      exact ih

/-- Clamping preserves order. -/
theorem clampScore_mono {x y : ℚ} (h : x ≤ y) : clampScore x ≤ clampScore y :=
  max_le_max (le_refl 0) (min_le_min (le_refl 100) h)

/-- The packet-loss subscore does not increase as loss increases. -/
theorem lossSub_anti {a b : ℚ} (h : a ≤ b) : lossSub b ≤ lossSub a :=
  clampScore_mono (by linarith)

/-- The signal subscore does not decrease as signal strength increases. -/
theorem signalSub_mono {a b : ℚ} (h : a ≤ b) : signalSub a ≤ signalSub b :=
  clampScore_mono (by linarith)

/-- A check's weight contribution is nonnegative. -/
theorem optW_nonneg {w : ℚ} (hw : 0 ≤ w) (o : Option ℚ) : 0 ≤ optW w o := by
  cases o <;> simp [optW, hw]

/-- The quality score does not increase as packet loss increases,
other inputs held fixed. -/
theorem qualityScore_loss_anti (lat sig dns : Option ℚ) {l1 l2 : ℚ} (h : l1 ≤ l2) :
    qualityScore lat (some l2) sig dns ≤ qualityScore lat (some l1) sig dns := by
  have ha : 0 ≤ optW wLat lat := optW_nonneg (by norm_num [wLat]) lat
  have hc : 0 ≤ optW wSig sig := optW_nonneg (by norm_num [wSig]) sig
  have hd : 0 ≤ optW wDns dns := optW_nonneg (by norm_num [wDns]) dns
  have hWpos : 0 < optW wLat lat + optW wLoss (some l2) + optW wSig sig + optW wDns dns := by
    have he : optW wLoss (some l2) = wLoss := rfl
    rw [he]
    have hp : (0 : ℚ) < wLoss := by norm_num [wLoss]
    linarith
  have hWeq : optW wLoss (some l1) = optW wLoss (some l2) := rfl
  unfold qualityScore
  rw [hWeq, if_neg (ne_of_gt hWpos), if_neg (ne_of_gt hWpos)]
  apply div_le_div_of_nonneg_right ?_ hWpos.le
  have hsub := lossSub_anti h
  have hwl : (0 : ℚ) ≤ wLoss := by norm_num [wLoss]
  have hm := mul_le_mul_of_nonneg_left hsub hwl
  have hn2 : optN wLoss lossSub (some l2) = wLoss * lossSub l2 := rfl
  have hn1 : optN wLoss lossSub (some l1) = wLoss * lossSub l1 := rfl
  rw [hn1, hn2]
  linarith

/-- The quality score does not decrease as signal strength increases,
other inputs held fixed. -/
theorem qualityScore_sig_mono (lat loss dns : Option ℚ) {s1 s2 : ℚ} (h : s1 ≤ s2) :
    qualityScore lat loss (some s1) dns ≤ qualityScore lat loss (some s2) dns := by
  have ha : 0 ≤ optW wLat lat := optW_nonneg (by norm_num [wLat]) lat
  have hb : 0 ≤ optW wLoss loss := optW_nonneg (by norm_num [wLoss]) loss
  have hd : 0 ≤ optW wDns dns := optW_nonneg (by norm_num [wDns]) dns
  have hWpos : 0 < optW wLat lat + optW wLoss loss + optW wSig (some s1) + optW wDns dns := by
    have he : optW wSig (some s1) = wSig := rfl
    rw [he]
    have hp : (0 : ℚ) < wSig := by norm_num [wSig]
    linarith
  have hWeq : optW wSig (some s2) = optW wSig (some s1) := rfl
  unfold qualityScore
  rw [hWeq, if_neg (ne_of_gt hWpos), if_neg (ne_of_gt hWpos)]
  apply div_le_div_of_nonneg_right ?_ hWpos.le
  have hsub := signalSub_mono h
  have hws : (0 : ℚ) ≤ wSig := by norm_num [wSig]
  have hm := mul_le_mul_of_nonneg_left hsub hws
  have hn1 : optN wSig signalSub (some s1) = wSig * signalSub s1 := rfl
  have hn2 : optN wSig signalSub (some s2) = wSig * signalSub s2 := rfl
  rw [hn1, hn2]
  linarith

/-- The double-asterisk pass is absorbed by the single-asterisk pass. -/
theorem stripStar_stripDoubleStar : ∀ l : List Char, stripStar (stripDoubleStar l) = stripStar l := by
  intro l
  induction l using stripDoubleStar.induct with
  | case1 => rfl
  | case2 c => rfl
  | case3 c d rest h ih =>
    obtain ⟨hc, hd⟩ := h
    subst hc; subst hd
    rw [stripDoubleStar, if_pos ⟨rfl, rfl⟩, ih]
    simp [stripStar, List.filter]
  | case4 c d rest h ih =>
    rw [stripDoubleStar, if_neg h]
    simp only [stripStar, List.filter] at ih ⊢
    cases hcd : (!(c == '*')) <;> simp [hcd, ih]

/-- Trimming only removes characters. -/
theorem mem_trimChars {c : Char} {l : List Char} (h : c ∈ trimChars l) : c ∈ l := by
  unfold trimChars at h
  rw [List.mem_reverse] at h
  have h1 := (List.dropWhile_sublist (l := (l.dropWhile Char.isWhitespace).reverse)
    (p := Char.isWhitespace)).subset h
  rw [List.mem_reverse] at h1
  exact (List.dropWhile_sublist (l := l) (p := Char.isWhitespace)).subset h1


/-- C2: intent classification evaluates the ordered rule table and returns
the target of the first matching rule (first-match, not best-match); with no
matching rule the result defaults to StatusQuery with no tags; and the rule
table lists Fix-tier rules before Suggestion-tier rules before
StatusQuery-tier rules. -/
theorem classifier_first_match_default (q : String) :
    classifyIntent q =
      ((ruleTable.find? (fun r => ruleMatches r q)).map (fun r => (r.intent, r.tags))).getD
        (Intent.statusQuery, [])
    ∧ List.Pairwise (fun a b => tierRank a.intent ≤ tierRank b.intent) ruleTable :=
  ⟨classifyFrom_eq_find ruleTable q, by decide⟩

/-- C3: for every issue-tag set, the planner's output has pairwise-distinct
action ids, is sorted by disruption rank ascending, has length at most the
per-request cap of 5, and every kept action has disruption rank at most that
of every action dropped by the truncation. -/
theorem planner_plan_shape (tags : List IssueTag) :
    ((planFix tags).map FixAction.id).Nodup
    ∧ List.Sorted disrLE (planFix tags)
    ∧ (planFix tags).length ≤ 5
    ∧ ((planFix tags).all (fun x =>
        (planDropped tags).all (fun y => decide (x.disruption ≤ y.disruption)))) = true := by
  have hperm : List.Perm (List.insertionSort disrLE (dedupById (tags.flatMap fixRegistry)))
      (dedupById (tags.flatMap fixRegistry)) := List.perm_insertionSort _ _
  have hsorted : List.Sorted disrLE (List.insertionSort disrLE (dedupById (tags.flatMap fixRegistry))) :=
    List.sorted_insertionSort disrLE _
  refine ⟨?_, ?_, ?_, ?_⟩
  · have hd : ((dedupById (tags.flatMap fixRegistry)).map FixAction.id).Nodup :=
      nodup_ids_dedupById _
    have hn : ((List.insertionSort disrLE (dedupById (tags.flatMap fixRegistry))).map
        FixAction.id).Nodup := ((hperm.map FixAction.id).nodup_iff).mpr hd
    rw [planFix, List.map_take]
    exact List.Nodup.sublist (List.take_sublist _ _) hn
  · rw [planFix]
    exact List.Pairwise.sublist (List.take_sublist _ _) hsorted
  · rw [planFix]
    exact List.length_take_le _ _
  · have hsplit : ((List.insertionSort disrLE (dedupById (tags.flatMap fixRegistry))).take planCap ++
        (List.insertionSort disrLE (dedupById (tags.flatMap fixRegistry))).drop planCap).Pairwise
        disrLE := by
      rw [List.take_append_drop]
      exact hsorted
    obtain ⟨-, -, hcross⟩ := List.pairwise_append.mp hsplit
    rw [List.all_eq_true]
    intro x hx
    rw [List.all_eq_true]
    intro y hy
    exact decide_eq_true (hcross x (by rw [planFix] at hx; exact hx) y (by rw [planDropped] at hy; exact hy))

/-- C1: the Diagnose operation always returns a report in which every check
datum mirrors its check outcome (a failed check is stored as "unknown",
never a default value) and every action result records the action's own
success flag (a failed action is `success = false`, never an exception);
and the UI's `handleSendMessage` always ends by storing an assistant
message — the cleaned response, or an apology when the request fails. -/
theorem diagnose_total_failures_as_data (content : String) (outcome : BackendOutcome)
    (q : String) (env : DiagEnv) :
    ((handleSendMessage true content outcome).getLast?).map ChatMsg.role = some "assistant"
    ∧ ((diagnose q env).results.all (fun r => r.success == env.actionOk r.actionId)) = true
    ∧ (diagnose q env).before.latency = env.latency
    ∧ (diagnose q env).before.packetLoss = env.packetLoss
    ∧ (diagnose q env).before.signalStrength = env.signalStrength
    ∧ (diagnose q env).before.dnsTime = env.dnsTime := by
  have hall : ((diagnose q env).results.all (fun r => r.success == env.actionOk r.actionId)) = true ∧
      (diagnose q env).before = collectSnapshot env := by
    unfold diagnose
    rcases hc : classifyIntent q with ⟨i, tags⟩
    cases i
    · simp
    · simp
    · by_cases hp : (planFix tags).isEmpty
      · simp [hp]
      · simp only [hp, Bool.false_eq_true, if_false]
        refine ⟨?_, by trivial⟩
        rw [List.all_eq_true]
        intro r hr
        rcases List.mem_map.mp hr with ⟨a, _, rfl⟩
        simp [runAction]
  refine ⟨?_, hall.1, ?_, ?_, ?_, ?_⟩
  · cases outcome <;> rfl
  all_goals rw [hall.2]; rfl

/-- C4: for every band-comparison execution the result records the phase-1
measurement, the phase-2 measurement exactly when the switch to the
alternate band succeeded, and the band the device actually ends on; the
device always ends on one of the two valid bands, stays on the original
band when the switch to the alternate band fails, and returns to the
original band whenever the phase-2 measurement fails and the restoring
switch succeeds. -/
theorem comparator_ends_on_valid_band (env : BandEnv) (orig : Band) :
    (bandComparator env orig).1.phase1 = env.measure orig
    ∧ (bandComparator env orig).1.finalBand = (bandComparator env orig).2
    ∧ ((bandComparator env orig).2 = orig ∨ (bandComparator env orig).2 = otherBand orig)
    ∧ (bandComparator env orig).1.phase2 =
        (if env.switchOk (otherBand orig) then env.measure (otherBand orig) else none)
    ∧ (!(env.switchOk (otherBand orig)) || ((bandComparator env orig).1.phase2).isSome
        || !(env.switchOk orig) || ((bandComparator env orig).2 == orig)) = true := by
  unfold bandComparator trySwitch
  by_cases hs : env.switchOk (otherBand orig)
  · rcases h1 : env.measure orig with _ | v1 <;> rcases h2 : env.measure (otherBand orig) with _ | v2
    · by_cases hr : env.switchOk orig <;> simp [hs, h1, h2, hr]
    · by_cases hr : env.switchOk orig <;> simp [hs, h1, h2, hr]
    · by_cases hr : env.switchOk orig <;> simp [hs, h1, h2, hr]
    · by_cases ht : v2 > v1 * (21 / 20)
      · simp [hs, h1, h2, ht]
      · by_cases hr : env.switchOk orig <;> simp [hs, h1, h2, ht, hr]
  · simp [hs]

/-- C7: holding the other subscore inputs fixed, the quality score is
monotonic non-increasing in packet loss and monotonic non-decreasing in
measured signal strength. -/
theorem score_monotone (lat dns lossO sigO : Option ℚ) (l1 l2 s1 s2 : ℚ)
    (hl : l1 ≤ l2) (hs : s1 ≤ s2) :
    qualityScore lat (some l2) sigO dns ≤ qualityScore lat (some l1) sigO dns
    ∧ qualityScore lat lossO (some s1) dns ≤ qualityScore lat lossO (some s2) dns :=
  ⟨qualityScore_loss_anti lat sigO dns hl, qualityScore_sig_mono lat lossO dns hs⟩

/-- Witness for C7 at concrete inputs: more loss cannot raise the score and
stronger signal cannot lower it. -/
theorem score_monotone_witness :
    qualityScore (some 20) (some 10) (some (-60)) (some 30) ≤
      qualityScore (some 20) (some 0) (some (-60)) (some 30)
    ∧ qualityScore (some 20) (some 5) (some (-70)) (some 30) ≤
      qualityScore (some 20) (some 5) (some (-50)) (some 30) :=
  score_monotone (some 20) (some 30) (some 5) (some (-60)) 0 10 (-70) (-50)
    (by norm_num) (by norm_num)

/-- C8: the assistant content stored by `handleSendMessage` is the response
cleaned by the source pipeline, that pipeline equals removing every asterisk
and trimming surrounding whitespace, and the cleaned text never contains an
asterisk. -/
theorem stored_response_clean (content s : String) :
    cleanResponse s = specCleaned s
    ∧ '*' ∉ (cleanResponse s).data
    ∧ ((handleSendMessage true content (.ok (some s))).getLast?).map ChatMsg.content =
        some (cleanResponse s) := by
  refine ⟨?_, ?_, rfl⟩
  · unfold cleanResponse specCleaned
    rw [show stripStar (stripDoubleStar s.data) = stripStar s.data from
      stripStar_stripDoubleStar s.data]
    rfl
  · intro hmem
    unfold cleanResponse at hmem
    have h1 : '*' ∈ stripStar (stripDoubleStar s.data) := mem_trimChars hmem
    have h2 := List.of_mem_filter h1
    simp at h2

/-- C9: each settings update from SettingsPanel changes only the edited
field: editing the API URL preserves the voice-mode flag (and the identity
fields), and toggling voice responses preserves the API URL (and the
identity fields). -/
theorem settings_frame (s : AppSettings) (v : String) (b : Bool) :
    (updateApiUrl s v).voice_mode_enabled = s.voice_mode_enabled
    ∧ (updateApiUrl s v).user_email = s.user_email
    ∧ (updateApiUrl s v).id = s.id
    ∧ (updateApiUrl s v).api_url = v
    ∧ (toggleVoiceMode s b).api_url = s.api_url
    ∧ (toggleVoiceMode s b).user_email = s.user_email
    ∧ (toggleVoiceMode s b).id = s.id
    ∧ (toggleVoiceMode s b).voice_mode_enabled = b :=
  ⟨rfl, rfl, rfl, rfl, rfl, rfl, rfl, rfl⟩

/-- C10: ChatInput's `handleSend` dispatches exactly when the trimmed
message is non-empty and no send is in flight; whenever it dispatches it
clears the input; and the send button is disabled exactly when no dispatch
would occur. -/
theorem chat_input_send_guard (m : String) (p : Bool) :
    (handleSend m p).isSome = (!(m.trim == "") && !p)
    ∧ ((handleSend m p).map Prod.snd).getD "" = ""
    ∧ sendButtonDisabled m p = (handleSend m p).isNone := by
  unfold handleSend sendButtonDisabled
  cases p <;> by_cases h : m.trim = "" <;> simp [h]

/-- C5 counterexample: PerformanceStatus renders a missing active-connections
datum as the default numeric text "0", not as an "unknown" marker. -/
theorem missing_datum_renders_zero : perfActiveConnectionsText none = "0" := rfl

/-- C5 amended: a snapshot never contains partially-written fields (every
check datum mirrors its check outcome, with `none` as the explicit unknown
marker), and the status cards render a missing quality as "Unknown" and a
missing signal as "N/A" — except the Performance card's active-connections
datum, which renders as the default number 0 when missing. -/
theorem snapshot_unknown_markers (env : DiagEnv) :
    (collectSnapshot env).latency = env.latency
    ∧ (collectSnapshot env).packetLoss = env.packetLoss
    ∧ (collectSnapshot env).signalStrength = env.signalStrength
    ∧ (collectSnapshot env).dnsTime = env.dnsTime
    ∧ (collectSnapshot env).activeConnections = env.activeConnections
    ∧ perfQualityText none = "Unknown"
    ∧ perfQualityText (some "") = "Unknown"
    ∧ netSignalText none = "N/A"
    ∧ perfActiveConnectionsText none = "0" :=
  ⟨rfl, rfl, rfl, rfl, rfl, rfl, rfl, rfl, rfl⟩

/-- C6 counterexample: Dashboard's `handleSendMessage` body runs for a
loaded user even while `isProcessing` is true — its only guard is the user
check, so a send dispatched by another caller (for example a suggestion
click) proceeds during an in-flight send. -/
theorem dashboard_ignores_processing : dashSendMessageRuns true true = true := rfl

/-- C6 amended: the interface-keyed execution lock admits at most one run
per interface — acquiring a held interface is rejected, and after a
successful acquire a second acquire of the same interface is rejected; in
the UI the `isProcessing` guard is enforced by ChatInput's `handleSend`,
which never dispatches while a send is in flight, but Dashboard's
`handleSendMessage` itself does not check `isProcessing`. -/
theorem remediation_lock_exclusion (locked : List String) (iface m : String) :
    tryAcquire (iface :: locked) iface = none
    ∧ ((tryAcquire locked iface).elim (iface ∈ locked) (fun l2 => tryAcquire l2 iface = none))
    ∧ handleSend m true = none
    ∧ dashSendMessageRuns true true = true := by
  refine ⟨?_, ?_, ?_, rfl⟩
  · unfold tryAcquire
    rw [if_pos (List.mem_cons_self iface locked)]
  · unfold tryAcquire
    by_cases h : iface ∈ locked
    · rw [if_pos h]
      exact h
    · rw [if_neg h]
      show tryAcquire (iface :: locked) iface = none
      unfold tryAcquire
      rw [if_pos (List.mem_cons_self iface locked)]
  · simp [handleSend]
